import Mathlib

/-!
Shallow embedding of the node-rendering layer of react-flow
(packages/react/src/container/NodeRenderer/index.tsx): the collection
coordinator (NodeRenderer) and the per-node presenter (NodeComponentWrapper),
together with the JavaScript value semantics (truthiness, logical or,
nullish coalescing) the source relies on.  Coordinates are modelled as
rationals; the geometry helpers and the error-message table imported from
the xyflow system package are modelled from the specification, as their
source is not part of this fragment.
-/

namespace ReactFlow

/-- A JavaScript value that is either a boolean or undefined, as used for the
per-node tri-state capability fields (draggable, selectable, connectable,
focusable) and for selected. -/
inductive JSBool where
  | undef
  | val (b : Bool)
deriving DecidableEq

/-- JavaScript truthiness of a boolean-or-undefined value. -/
def JSBool.truthy : JSBool → Bool
  | .undef => false
  | .val b => b

/-- The test typeof v === the undefined literal for a boolean-or-undefined value. -/
def JSBool.isUndefined : JSBool → Bool
  | .undef => true
  | .val _ => false

/-- JavaScript logical or on boolean-or-undefined values: returns the left
operand when it is truthy, otherwise the right operand. -/
def JSBool.jsOr (x y : JSBool) : JSBool :=
  if x.truthy then x else y

/-- JavaScript string-or-default: s || d returns d when s is undefined or the
empty string (both falsy), otherwise s.  Mirrors node.type || the default
type name in the source. -/
def jsStrOr (s : Option String) (d : String) : String :=
  match s with
  | none => d
  | some v => if v = "" then d else v

/-- A 2-d position (JS number pairs modelled as rationals). -/
structure Position where
  x : ℚ
  y : ℚ
deriving DecidableEq

/-- A coordinate extent: the rectangle [[minX, minY], [maxX, maxY]] node
positions are clamped into. -/
structure CoordinateExtent where
  minX : ℚ
  minY : ℚ
  maxX : ℚ
  maxY : ℚ
deriving DecidableEq

/-- A node origin: fractional anchor point, one coefficient per axis. -/
structure NodeOrigin where
  ox : ℚ
  oy : ℚ
deriving DecidableEq

/-- The connection-side anchor enumeration (Position from the system package:
top, right, bottom, left). -/
inductive HandlePosition where
  | top
  | right
  | bottom
  | left
deriving DecidableEq

/-- The computed (measured / layout-derived) geometry of a node:
node.computed in the source, all fields optional. -/
structure ComputedGeom where
  positionAbsolute : Option Position := none
  width : Option ℚ := none
  height : Option ℚ := none
deriving DecidableEq

/-- The store-internal fields of a node (node[internalsSymbol]):
z-order and parent flag, both set by the layout pass. -/
structure Internals where
  z : Option ℚ := none
  isParent : Option Bool := none
deriving DecidableEq

/-- A node record as read by the presenter from the store.  The payload
field data and style are kept as uninterpreted strings; event callbacks are not
part of the record. -/
structure Node where
  id : String
  type : Option String := none
  className : Option String := none
  style : Option String := none
  width : Option ℚ := none
  height : Option ℚ := none
  data : String := ""
  sourcePosition : Option HandlePosition := none
  targetPosition : Option HandlePosition := none
  hidden : Option Bool := none
  selected : JSBool := .undef
  draggable : JSBool := .undef
  selectable : JSBool := .undef
  connectable : JSBool := .undef
  focusable : JSBool := .undef
  dragHandle : Option String := none
  origin : Option NodeOrigin := none
  ariaLabel : Option String := none
  computed : Option ComputedGeom := none
  internals : Option Internals := none
deriving DecidableEq

/-- An observed DOM element, as seen by the resize-observer callback: the
only part the callback reads is its data-id attribute, which is a string
or null (getAttribute returns null when the attribute is absent). -/
structure ObservedElement where
  dataId : Option String
deriving DecidableEq

/-- A dimension update staged by the observer callback:
the object literal with id, nodeElement and forceUpdate true.  The id field
is the raw attribute value, so it can be null (none). -/
structure DimensionUpdate where
  id : Option String
  nodeElement : ObservedElement
  forceUpdate : Bool
deriving DecidableEq

/-- An observable side effect of this layer: an invocation of the onError
callback, or one call to the store dimension-update function carrying a
whole mapping (listed in insertion order, keyed by the possibly-null id). -/
inductive Effect where
  | errorCall (code : String) (message : String)
  | storeWrite (updates : List (Option String × DimensionUpdate))
deriving DecidableEq

/-- Modelled from the spec: the message produced by the error-message table
of the system package for code 003 (unknown node type); the source of that
table is not part of this fragment.  The spec only requires a message
referencing the offending type name. -/
def error003Message (nodeType : String) : String :=
  "Node type \"" ++ nodeType ++ "\" not found. Using fallback type \"default\"."

/-- Modelled from the spec: the clampPosition geometry helper of the system
package (spec section 6), which clamps a position into the extent
rectangle; its source is not part of this fragment. -/
def clampPosition (p : Position) (e : CoordinateExtent) : Position :=
  ⟨min (max p.x e.minX) e.maxX, min (max p.y e.minY) e.maxY⟩

/-- Modelled from the spec: behaviour of clampPosition when the presenter
hands it a missing absolute position; per the spec, a missing absolute
position defaults to the origin point (0, 0). -/
def clampPositionOpt (p : Option Position) (e : CoordinateExtent) : Position :=
  match p with
  | some q => clampPosition q e
  | none => ⟨0, 0⟩

/-- Modelled from the spec: the getPositionWithOrigin geometry helper of the
system package, which offsets a position by (width times originX, height
times originY); its source is not part of this fragment. -/
def getPositionWithOrigin (x y width height : ℚ) (origin : NodeOrigin) : Position :=
  ⟨x - width * origin.ox, y - height * origin.oy⟩

/-- The effective capability boolean exactly as the presenter computes it:
the double-negation of node.value or (collectionFlag and node.value being
undefined), lines 166 to 169 of the source. -/
def effectiveCapability (nodeValue : JSBool) (collectionFlag : Bool) : Bool :=
  (nodeValue.jsOr (.val (collectionFlag && nodeValue.isUndefined))).truthy

/-- The capability formula as the spec states it: the collection-wide
default when the node value is undefined, the coercion of the node value to
a boolean otherwise. -/
def specCapability (nodeValue : JSBool) (collectionFlag : Bool) : Bool :=
  match nodeValue with
  | .undef => collectionFlag
  | .val b => b

/-- The resolved type name after the registry check of lines 157 to 163:
node.type or the default name, replaced by the default name when the
registry has no entry for it. -/
def resolvedTypeName {C : Type} (nodeTypes : String → Option C) (typeField : Option String) : String :=
  let nodeType := jsStrOr typeField "default"
  if (nodeTypes nodeType).isSome then nodeType else "default"

/-- The error-callback invocations performed while resolving the node type
(line 160): one call with code 003 when the registry misses the resolved
name and the onError callback is defined, none otherwise. -/
def nodeTypeErrors {C : Type} (onErrorDefined : Bool) (nodeTypes : String → Option C)
    (typeField : Option String) : List Effect :=
  let nodeType := jsStrOr typeField "default"
  if (nodeTypes nodeType).isSome then []
  else if onErrorDefined then [.errorCall "003" (error003Message nodeType)] else []

/-- The component chosen on line 165: the registry entry for the resolved
name, falling back to the registry default entry. -/
def componentOf {C : Type} (nodeTypes : String → Option C) (typeField : Option String) : Option C :=
  ((nodeTypes (resolvedTypeName nodeTypes typeField)).orElse (fun _ => nodeTypes "default"))

/-- The collection-wide inputs the presenter receives from the coordinator
(store-derived flags plus the coordinator props it forwards).  The observer
reference is modelled as an optional token. -/
structure WrapperProps where
  id : String
  nodeExtent : Option CoordinateExtent := none
  nodeOrigin : NodeOrigin := ⟨0, 0⟩
  resizeObserver : Option Nat := none
  nodesDraggable : Bool := false
  nodesConnectable : Bool := false
  nodesFocusable : Bool := false
  elementsSelectable : Bool := false
  onErrorDefined : Bool := true
  rfId : Option String := none
  disableKeyboardA11y : Bool := false
deriving DecidableEq

/-- The clamped position of lines 171 to 173: when an extent is configured
the absolute position is clamped into it, otherwise it is passed through
unchanged (still possibly missing). -/
def clampedPositionOf (nodeExtent : Option CoordinateExtent) (posAbs : Option Position) :
    Option Position :=
  match nodeExtent with
  | some e => some (clampPositionOpt posAbs e)
  | none => posAbs

/-- JavaScript truthiness of an optional number: undefined and zero are
falsy. -/
def truthyNum (q : Option ℚ) : Bool :=
  match q with
  | none => false
  | some v => decide (v ≠ 0)

/-- The clampedPosition local of the presenter, applied to the extent prop
and the computed absolute position of the node. -/
def clampedPosition (props : WrapperProps) (node : Node) : Option Position :=
  clampedPositionOf props.nodeExtent (node.computed.bind ComputedGeom.positionAbsolute)

/-- The posX local of line 175: the clamped x coordinate, defaulting to 0
when the position is missing. -/
def posX (props : WrapperProps) (node : Node) : ℚ :=
  ((clampedPosition props node).map Position.x).getD 0

/-- The posY local of line 176. -/
def posY (props : WrapperProps) (node : Node) : ℚ :=
  ((clampedPosition props node).map Position.y).getD 0

/-- The width argument of line 180: computed width, else authored width,
else 0. -/
def widthUsed (node : Node) : ℚ :=
  (((node.computed.bind ComputedGeom.width).orElse (fun _ => node.width)).getD 0)

/-- The height argument of line 181: computed height, else authored height,
else 0. -/
def heightUsed (node : Node) : ℚ :=
  (((node.computed.bind ComputedGeom.height).orElse (fun _ => node.height)).getD 0)

/-- The origin argument of line 182: the node origin field or (it is an
array, hence truthy whenever present) the collection-wide origin. -/
def originUsed (node : Node) (collectionOrigin : NodeOrigin) : NodeOrigin :=
  node.origin.getD collectionOrigin

/-- The posOrigin local of lines 177 to 183. -/
def posOrigin (props : WrapperProps) (node : Node) : Position :=
  getPositionWithOrigin (posX props node) (posY props node)
    (widthUsed node) (heightUsed node) (originUsed node props.nodeOrigin)

/-- The initialized local of line 184. -/
def initializedOf (node : Node) : Bool :=
  (truthyNum (node.computed.bind ComputedGeom.width)
      && truthyNum (node.computed.bind ComputedGeom.height))
    || (truthyNum node.width && truthyNum node.height)

/-- The fully resolved prop set handed to the external visual component
(lines 186 to 225).  Event callbacks and the gesture-suppression class
names, which are forwarded untouched, are elided. -/
structure WrapNodeProps where
  id : String
  className : Option String
  style : Option String
  width : Option ℚ
  height : Option ℚ
  type : String
  data : String
  sourcePosition : HandlePosition
  targetPosition : HandlePosition
  hidden : Option Bool
  xPos : ℚ
  yPos : ℚ
  xPosOrigin : ℚ
  yPosOrigin : ℚ
  positionAbsolute : Position
  selected : Bool
  isDraggable : Bool
  isSelectable : Bool
  isConnectable : Bool
  isFocusable : Bool
  resizeObserver : Option Nat
  dragHandle : Option String
  zIndex : ℚ
  isParent : Bool
  initialized : Bool
  rfId : Option String
  disableKeyboardA11y : Bool
  ariaLabel : Option String
deriving DecidableEq

/-- The prop set the presenter computes for a node it did find in the store,
mirroring lines 157 to 225 of the source; the resolved type name is passed
in (it is computed by resolvedTypeName). -/
def wrapPropsOf (resolvedType : String) (props : WrapperProps) (node : Node) : WrapNodeProps :=
  { id := node.id
    className := node.className
    style := node.style
    width := node.width
    height := node.height
    type := resolvedType
    data := node.data
    sourcePosition := node.sourcePosition.getD .bottom
    targetPosition := node.targetPosition.getD .top
    hidden := node.hidden
    xPos := posX props node
    yPos := posY props node
    xPosOrigin := (posOrigin props node).x
    yPosOrigin := (posOrigin props node).y
    positionAbsolute := (clampedPosition props node).getD ⟨0, 0⟩
    selected := node.selected.truthy
    isDraggable := effectiveCapability node.draggable props.nodesDraggable
    isSelectable := effectiveCapability node.selectable props.elementsSelectable
    isConnectable := effectiveCapability node.connectable props.nodesConnectable
    isFocusable := effectiveCapability node.focusable props.nodesFocusable
    resizeObserver := props.resizeObserver
    dragHandle := node.dragHandle
    zIndex := ((node.internals.bind Internals.z).getD 0)
    isParent := ((node.internals.bind Internals.isParent).getD false)
    initialized := initializedOf node
    rfId := props.rfId
    disableKeyboardA11y := props.disableKeyboardA11y
    ariaLabel := node.ariaLabel }

/-- One render of the presenter (NodeComponentWrapper, lines 153 to 227):
look the node up by id; when absent render nothing with no effects; when
present emit the type-resolution error calls and render the chosen
component with the fully resolved props. -/
def renderNode {C : Type} (nodeTypes : String → Option C) (props : WrapperProps)
    (nodeLookup : String → Option Node) : Option (Option C × WrapNodeProps) × List Effect :=
  match nodeLookup props.id with
  | none => (none, [])
  | some node =>
    (some (componentOf nodeTypes node.type,
           wrapPropsOf (resolvedTypeName nodeTypes node.type) props node),
     nodeTypeErrors props.onErrorDefined nodeTypes node.type)

/-- The slice of the global store the coordinator and presenters read.
Function-valued store fields (the dimension-update function and the onError
callback) are represented by reference tokens, since the shallow equality
gate compares them by reference.  The visible node id list is modelled from
the spec: it is the projection the useVisibleNodesIds hook subscribes to,
whose source is not part of this fragment. -/
structure StoreState where
  nodeLookup : String → Option Node
  visibleNodeIds : List String
  nodesDraggable : Bool
  nodesConnectable : Bool
  nodesFocusable : Bool
  elementsSelectable : Bool
  updateNodeDimensionsRef : Nat
  onErrorRef : Nat

/-- The output of the coordinator selector (lines 30 to 37), compared with
shallow equality to gate coordinator re-renders. -/
structure SelectorOut where
  nodesDraggable : Bool
  nodesConnectable : Bool
  nodesFocusable : Bool
  elementsSelectable : Bool
  updateNodeDimensionsRef : Nat
  onErrorRef : Nat
deriving DecidableEq

/-- The coordinator selector of lines 30 to 37. -/
def selector (s : StoreState) : SelectorOut :=
  { nodesDraggable := s.nodesDraggable
    nodesConnectable := s.nodesConnectable
    nodesFocusable := s.nodesFocusable
    elementsSelectable := s.elementsSelectable
    updateNodeDimensionsRef := s.updateNodeDimensionsRef
    onErrorRef := s.onErrorRef }

/-- The store-derived props the coordinator passes to the presenter of one
node id (lines 103 to 125); the props that do not come from the store
(nodeTypes, extent, origin, callbacks) are constant across store
transitions and therefore omitted. -/
structure DownProps where
  id : String
  resizeObserver : Option Nat
  nodesDraggable : Bool
  nodesConnectable : Bool
  nodesFocusable : Bool
  elementsSelectable : Bool
  onErrorRef : Nat
deriving DecidableEq

/-- The store-derived props for one node id in one store state. -/
def downProps (i : String) (obs : Option Nat) (s : StoreState) : DownProps :=
  { id := i
    resizeObserver := obs
    nodesDraggable := s.nodesDraggable
    nodesConnectable := s.nodesConnectable
    nodesFocusable := s.nodesFocusable
    elementsSelectable := s.elementsSelectable
    onErrorRef := s.onErrorRef }

/-- The list of presenter instances (one per visible id, in list order) the
coordinator renders, lines 76 to 128. -/
def coordinatorChildren (obs : Option Nat) (s : StoreState) : List DownProps :=
  s.visibleNodeIds.map (fun i => downProps i obs s)

/-- Modelled from the spec: the store subscription contract (spec section
6).  The coordinator re-renders on a store transition exactly when its
shallow-compared selector output changes or the visible node id list it
subscribes to separately changes. -/
def coordinatorRerenders (s1 s2 : StoreState) : Prop :=
  selector s1 ≠ selector s2 ∨ s1.visibleNodeIds ≠ s2.visibleNodeIds

/-- Modelled from the spec: the memoised presenter re-renders on a store
transition exactly when its own store subscription (the lookup of its node
id) changes, or its parent re-renders and hands it shallow-different
props. -/
def presenterRerenders (i : String) (obs : Option Nat) (s1 s2 : StoreState) : Prop :=
  (coordinatorRerenders s1 s2 ∧ downProps i obs s1 ≠ downProps i obs s2)
    ∨ s1.nodeLookup i ≠ s2.nodeLookup i

/-- A store transition that mutates the record of one node and nothing
else: the fields of node j change, the visible id list keeps its
membership, every collection-wide input is untouched. -/
def mutateNode (s : StoreState) (j : String) (n : Node) : StoreState :=
  { s with nodeLookup := fun k => if k = j then some n else s.nodeLookup k }

/-! ## The resize-observer callback (lines 50 to 63) -/

/-- JavaScript Map.set on a map represented as its entry list in insertion
order: an existing binding of the key is overwritten in place, a fresh key
is appended at the end. -/
def mapSet (m : List (Option String × DimensionUpdate)) (k : Option String)
    (v : DimensionUpdate) : List (Option String × DimensionUpdate) :=
  if m.any (fun p => decide (p.1 = k)) then
    m.map (fun p => if p.1 = k then (k, v) else p)
  else
    m ++ [(k, v)]

/-- JavaScript Map.get on the entry-list representation. -/
def mapGet (m : List (Option String × DimensionUpdate)) (k : Option String) :
    Option DimensionUpdate :=
  (m.find? (fun p => decide (p.1 = k))).map Prod.snd

/-- The key list of the entry-list representation of a JavaScript Map, in
insertion order. -/
def mapKeys (m : List (Option String × DimensionUpdate)) : List (Option String) :=
  m.map Prod.fst

/-- The mapping the observer callback builds from a batch of entries
(lines 51 to 60): for each entry it reads the data-id attribute (cast to a
string key even when null) and stages the update object under that key. -/
def stagedUpdates (entries : List ObservedElement) :
    List (Option String × DimensionUpdate) :=
  entries.foldl (fun m entry => mapSet m entry.dataId ⟨entry.dataId, entry, true⟩) []

/-- One invocation of the observer callback: build the mapping over the
whole batch, then issue a single store write with it (line 62). -/
def resizeObserverCallback (entries : List ObservedElement) : List Effect :=
  [.storeWrite (stagedUpdates entries)]

/-! ## The coordinator hook lifecycle (lines 43 to 74) -/

/-- The hook-held state of one coordinator instance: whether the
empty-dependency memo has been computed, its value (the observer token or
null), the observer ref, and counters of observer constructions and
disconnect calls. -/
structure CoordState where
  memoComputed : Bool
  observer : Option Nat
  refCurrent : Option Nat
  constructions : Nat
  disconnectCalls : Nat
  errorCalls : List Effect
deriving DecidableEq

/-- The coordinator state before the first render. -/
def coordInit : CoordState :=
  { memoComputed := false
    observer := none
    refCurrent := none
    constructions := 0
    disconnectCalls := 0
    errorCalls := [] }

/-- One render pass of the coordinator.  The memo body (lines 45 to 68)
runs only on the first render (empty dependency list): when the runtime
has the ResizeObserver capability it constructs one observer and stores it
in the ref, otherwise it returns null; it reports no error either way.
Subsequent renders reuse the memoised value. -/
def coordRenderPass (hasResizeObserver : Bool) (st : CoordState) : CoordState :=
  if st.memoComputed then st
  else if hasResizeObserver then
    { st with
      memoComputed := true
      observer := some 0
      refCurrent := some 0
      constructions := st.constructions + 1 }
  else
    { st with memoComputed := true, observer := none }

/-- Unmount of the coordinator: the effect cleanup (lines 70 to 74) calls
disconnect on the ref content when one is present. -/
def coordUnmount (st : CoordState) : CoordState :=
  if st.refCurrent.isSome then { st with disconnectCalls := st.disconnectCalls + 1 } else st

/-- A whole coordinator lifetime: mount render, n further renders, then
unmount. -/
def coordLifetime (hasResizeObserver : Bool) (n : Nat) : CoordState :=
  coordUnmount ((coordRenderPass hasResizeObserver)^[n + 1] coordInit)

/-! ## Spec-side comparison definitions and concrete fixtures -/

/-- The origin-adjusted position written from the spec words (spec section
4.2 step 6), for comparison with the presenter computation: the node origin
override if present else the collection-wide origin, the computed size if
available else the authored size else zero, offsetting the clamped
position. -/
def specOriginAdjusted (node : Node) (collectionOrigin : NodeOrigin) (x y : ℚ) : Position :=
  let origin := match node.origin with
    | some o => o
    | none => collectionOrigin
  let w := match node.computed.bind ComputedGeom.width with
    | some v => v
    | none => match node.width with
      | some v => v
      | none => 0
  let h := match node.computed.bind ComputedGeom.height with
    | some v => v
    | none => match node.height with
      | some v => v
      | none => 0
  ⟨x - w * origin.ox, y - h * origin.oy⟩

/-- The type-name resolution written from the claim words (the node type
field if present, else the default name), for the comparison with the
source resolution, which also replaces the falsy empty string. -/
def claimResolvedName (typeField : Option String) : String :=
  typeField.getD "default"

/-- The claim about unknown-type error reporting, instantiated at one
registry and one type field: when the registry misses the name resolved
per the claim words, the error callback fires exactly once. -/
def claimUnknownTypeAt {C : Type} (nodeTypes : String → Option C) (typeField : Option String) :
    Prop :=
  nodeTypes (claimResolvedName typeField) = none →
    (nodeTypeErrors true nodeTypes typeField).length = 1

/-- A registry holding only the default entry. -/
def regDefaultOnly : String → Option Nat :=
  fun s => if s = "default" then some 0 else none

/-- A store node-lookup that finds nothing. -/
def emptyLookup : String → Option Node :=
  fun _ => none

/-- A node of an unregistered custom type, matching the scenario of spec
section 8. -/
def nodeCustom : Node :=
  { id := "n1"
    type := some "custom"
    width := some 100
    height := some 50
    computed := some { positionAbsolute := some ⟨10, 20⟩ } }

/-- A node whose type field is the empty string. -/
def nodeEmptyType : Node :=
  { id := "n3", type := some "" }

/-- A lookup holding the custom-type node under its id. -/
def lookupCustom : String → Option Node :=
  fun k => if k = "n1" then some nodeCustom else none

/-- A lookup holding the empty-type node under its id. -/
def lookupEmptyType : String → Option Node :=
  fun k => if k = "n3" then some nodeEmptyType else none

/-- Presenter props addressing the custom-type node. -/
def propsCustom : WrapperProps :=
  { id := "n1" }

/-- Presenter props addressing the empty-type node. -/
def propsEmptyType : WrapperProps :=
  { id := "n3" }

/-- Presenter props addressing an id no lookup will find. -/
def propsMissing : WrapperProps :=
  { id := "n2" }

/-- The extent of the spec section 8 scenario. -/
def extentFix : CoordinateExtent :=
  ⟨0, 0, 100, 100⟩

/-- Presenter props configuring the scenario extent. -/
def propsExtent : WrapperProps :=
  { id := "n4", nodeExtent := some extentFix }

/-- A node whose absolute position lies outside the scenario extent. -/
def nodeOutside : Node :=
  { id := "n4", computed := some { positionAbsolute := some ⟨150, 50⟩ } }

/-- A concrete store state for the re-render witnesses. -/
def storeFix : StoreState :=
  { nodeLookup := fun _ => none
    visibleNodeIds := ["n1", "n2"]
    nodesDraggable := false
    nodesConnectable := false
    nodesFocusable := false
    elementsSelectable := true
    updateNodeDimensionsRef := 0
    onErrorRef := 0 }

/-- A fresh record for node n2, used as an unrelated mutation. -/
def nodeFix : Node :=
  { id := "n2", selected := .val true }

/-- A batch of observed elements two of which lack the data-id attribute. -/
def entriesFix : List ObservedElement :=
  [⟨none⟩, ⟨some "a"⟩, ⟨none⟩]

/-! ## Helper lemmas -/

theorem effectiveCapability_eq_spec (v : JSBool) (d : Bool) :
    effectiveCapability v d = specCapability v d := by
  cases v with
  | undef => cases d <;> rfl
  | val b => cases b <;> cases d <;> rfl

theorem truthyNum_iff (q : Option ℚ) :
    truthyNum q = true ↔ ∃ v, q = some v ∧ v ≠ 0 := by
  cases q <;> simp [truthyNum]

/-! ## Claim theorems -/

/-- C2: for each of the four capability flags, the effective boolean the
presenter computes with the source expression (double negation of the node
value or-ed with the collection default gated on undefinedness) equals the
spec formula: the collection-wide default when the node value is
undefined, the boolean coercion of the node value otherwise; and the
presenter passes exactly these values for all four capability props. -/
theorem capability_resolution_matches_spec :
    (∀ v d, effectiveCapability v d = specCapability v d) ∧
    (∀ resolvedType props node,
      (wrapPropsOf resolvedType props node).isDraggable
          = specCapability node.draggable props.nodesDraggable
        ∧ (wrapPropsOf resolvedType props node).isSelectable
          = specCapability node.selectable props.elementsSelectable
        ∧ (wrapPropsOf resolvedType props node).isConnectable
          = specCapability node.connectable props.nodesConnectable
        ∧ (wrapPropsOf resolvedType props node).isFocusable
          = specCapability node.focusable props.nodesFocusable) := by
  refine ⟨effectiveCapability_eq_spec, fun resolvedType props node => ?_⟩
  simp [wrapPropsOf, effectiveCapability_eq_spec]

/-- C4: when the store lookup finds no record for the id of the presenter, the
presenter renders nothing, invokes no error callback and performs no store
write (its render is the pair of no component and the empty effect
list). -/
theorem missing_node_renders_nothing {C : Type} (nodeTypes : String → Option C)
    (props : WrapperProps) (nodeLookup : String → Option Node)
    (h : nodeLookup props.id = none) :
    renderNode nodeTypes props nodeLookup = (none, []) := by
  simp [renderNode, h]

theorem missing_node_renders_nothing_witness :
    emptyLookup "n2" = none ∧
      renderNode regDefaultOnly propsMissing emptyLookup = (none, []) :=
  ⟨rfl, missing_node_renders_nothing regDefaultOnly propsMissing emptyLookup rfl⟩

/-- C8: the initialized prop is true exactly when both computed dimensions
are present and non-zero, or both authored dimensions are present and
non-zero. -/
theorem initialized_iff_size_pairs (resolvedType : String) (props : WrapperProps) (node : Node) :
    ((wrapPropsOf resolvedType props node).initialized = true ↔
      ((∃ w, node.computed.bind ComputedGeom.width = some w ∧ w ≠ 0)
          ∧ (∃ h, node.computed.bind ComputedGeom.height = some h ∧ h ≠ 0))
        ∨ ((∃ w, node.width = some w ∧ w ≠ 0)
          ∧ (∃ h, node.height = some h ∧ h ≠ 0))) := by
  simp [wrapPropsOf, initializedOf, truthyNum_iff]

/-- C7: the origin-adjusted position the presenter passes down equals the
spec formula: the clamped position offset by size times origin, where the
origin is the node override if present else the collection-wide origin,
and the size is the computed one if available else the authored one else
zero. -/
theorem origin_adjusted_position_matches_spec (resolvedType : String)
    (props : WrapperProps) (node : Node) :
    (⟨(wrapPropsOf resolvedType props node).xPosOrigin,
      (wrapPropsOf resolvedType props node).yPosOrigin⟩ : Position)
      = specOriginAdjusted node props.nodeOrigin (posX props node) (posY props node) := by
  have h : posOrigin props node
      = specOriginAdjusted node props.nodeOrigin (posX props node) (posY props node) := by
    unfold posOrigin specOriginAdjusted getPositionWithOrigin widthUsed heightUsed originUsed
    cases node.origin <;> cases node.computed.bind ComputedGeom.width <;>
      cases node.computed.bind ComputedGeom.height <;>
      cases node.width <;> cases node.height <;> rfl
  simp only [wrapPropsOf]
  rw [← h]

/-- C6: the position passed to the visual component is the absolute
position clamped into the extent when one is configured, the absolute
position unchanged when none is, and (0, 0) when the absolute position is
missing; clamping is the identity inside the extent, and the spec scenario
(150, 50) against the extent [0, 100] squared yields (100, 50). -/
theorem clamped_position_behaviour :
    (∀ resolvedType (props : WrapperProps) (node : Node) (e : CoordinateExtent) (p : Position),
        props.nodeExtent = some e →
        node.computed.bind ComputedGeom.positionAbsolute = some p →
        (wrapPropsOf resolvedType props node).positionAbsolute = clampPosition p e
          ∧ (wrapPropsOf resolvedType props node).xPos = (clampPosition p e).x
          ∧ (wrapPropsOf resolvedType props node).yPos = (clampPosition p e).y)
    ∧ (∀ resolvedType (props : WrapperProps) (node : Node) (p : Position),
        props.nodeExtent = none →
        node.computed.bind ComputedGeom.positionAbsolute = some p →
        (wrapPropsOf resolvedType props node).positionAbsolute = p
          ∧ (wrapPropsOf resolvedType props node).xPos = p.x
          ∧ (wrapPropsOf resolvedType props node).yPos = p.y)
    ∧ (∀ resolvedType (props : WrapperProps) (node : Node),
        node.computed.bind ComputedGeom.positionAbsolute = none →
        (wrapPropsOf resolvedType props node).xPos = 0
          ∧ (wrapPropsOf resolvedType props node).yPos = 0
          ∧ (wrapPropsOf resolvedType props node).positionAbsolute = ⟨0, 0⟩)
    ∧ (∀ (e : CoordinateExtent) (p : Position),
        e.minX ≤ p.x → p.x ≤ e.maxX → e.minY ≤ p.y → p.y ≤ e.maxY →
        clampPosition p e = p)
    ∧ clampPosition ⟨150, 50⟩ extentFix = ⟨100, 50⟩ := by
  refine ⟨?_, ?_, ?_, ?_, ?_⟩
  · intro resolvedType props node e p h1 h2
    simp [wrapPropsOf, posX, posY, clampedPosition, clampedPositionOf, clampPositionOpt, h1, h2]
  · intro resolvedType props node p h1 h2
    simp [wrapPropsOf, posX, posY, clampedPosition, clampedPositionOf, h1, h2]
  · intro resolvedType props node h1
    cases h2 : props.nodeExtent with
    | none =>
      simp [wrapPropsOf, posX, posY, clampedPosition, clampedPositionOf, h1, h2]
    | some e =>
      simp [wrapPropsOf, posX, posY, clampedPosition, clampedPositionOf, clampPositionOpt, h1, h2]
  · intro e p h1 h2 h3 h4
    unfold clampPosition
    cases p
    congr 1 <;> dsimp only
    · rw [max_eq_left h1, min_eq_left h2]
    · rw [max_eq_left h3, min_eq_left h4]
  · decide

theorem clamped_position_behaviour_witness :
    propsExtent.nodeExtent = some extentFix
      ∧ nodeOutside.computed.bind ComputedGeom.positionAbsolute = some ⟨150, 50⟩
      ∧ (wrapPropsOf "default" propsExtent nodeOutside).positionAbsolute = ⟨100, 50⟩ := by
  have h := clamped_position_behaviour
  have h1 := (h.1 "default" propsExtent nodeOutside extentFix ⟨150, 50⟩ rfl rfl).1
  exact ⟨rfl, rfl, h1.trans h.2.2.2.2⟩

/-- C3 counterexample: for the node type field holding the empty string and
a registry with only the default entry, the name resolved per the claim
(the type field itself, the empty string) has no registry entry, yet the
presenter invokes the error callback zero times rather than exactly once:
the source also replaces the falsy empty string by the default name before
the registry check. -/
theorem unknown_type_claim_counterexample :
    ¬ claimUnknownTypeAt regDefaultOnly (some "") := by
  intro h
  have h0 : regDefaultOnly (claimResolvedName (some "")) = none := rfl
  have h1 := h h0
  simp [nodeTypeErrors, jsStrOr, regDefaultOnly] at h1

/-- C3 (amended): with the resolved type name taken as the node type field
when present and non-empty (JS-truthy), else the default name: when the
registry has an entry for the resolved name the presenter reports no error
and renders that entry, and when it has none the presenter invokes the
error callback exactly once, with code 003 and a message containing the
resolved name, and renders the registry default entry. -/
theorem unknown_type_error_and_fallback {C : Type} (nodeTypes : String → Option C)
    (props : WrapperProps) (nodeLookup : String → Option Node) (node : Node)
    (hprops : props.onErrorDefined = true)
    (hnode : nodeLookup props.id = some node) :
    ((renderNode nodeTypes props nodeLookup).2 = nodeTypeErrors true nodeTypes node.type
      ∧ ((nodeTypes (jsStrOr node.type "default")).isSome = true →
          nodeTypeErrors true nodeTypes node.type = []
            ∧ componentOf nodeTypes node.type = nodeTypes (jsStrOr node.type "default"))
      ∧ (nodeTypes (jsStrOr node.type "default") = none →
          nodeTypeErrors true nodeTypes node.type
              = [.errorCall "003" (error003Message (jsStrOr node.type "default"))]
            ∧ (∃ pre post, error003Message (jsStrOr node.type "default")
                = pre ++ jsStrOr node.type "default" ++ post)
            ∧ componentOf nodeTypes node.type = nodeTypes "default")) := by
  refine ⟨by simp [renderNode, hnode, hprops], ?_, ?_⟩
  · intro hsome
    refine ⟨by simp [nodeTypeErrors, hsome], ?_⟩
    unfold componentOf resolvedTypeName
    rw [if_pos hsome]
    cases hv : nodeTypes (jsStrOr node.type "default") with
    | none => rw [hv] at hsome; simp at hsome
    | some c => simp [Option.orElse, hv]
  · intro hnone
    have hsome : (nodeTypes (jsStrOr node.type "default")).isSome = false := by
      rw [hnone]; rfl
    refine ⟨by simp [nodeTypeErrors, hnone], ?_, ?_⟩
    · exact ⟨"Node type \"", "\" not found. Using fallback type \"default\".", rfl⟩
    · unfold componentOf resolvedTypeName
      rw [if_neg (by simp [hnone])]
      cases hv : nodeTypes "default" with
      | none => simp [Option.orElse, hv]
      | some c => simp [Option.orElse, hv]

theorem unknown_type_error_and_fallback_witness :
    nodeTypeErrors true regDefaultOnly nodeCustom.type
        = [.errorCall "003" (error003Message "custom")]
      ∧ componentOf regDefaultOnly nodeCustom.type = regDefaultOnly "default" := by
  have h := unknown_type_error_and_fallback regDefaultOnly propsCustom lookupCustom
    nodeCustom rfl rfl
  have h3 := h.2.2 rfl
  exact ⟨h3.1, h3.2.2⟩

/-- C1: a store transition that rewrites the record of one node and leaves
the visible id list and every selector field untouched re-renders neither
the coordinator (its shallow-compared selector output and its subscribed
id list are both unchanged) nor the presenter of any other node id, whose
own lookup and received props are both unchanged. -/
theorem unrelated_mutation_causes_no_rerender (s : StoreState) (j : String) (n : Node)
    (i : String) (obs : Option Nat) (hij : i ≠ j) :
    ¬ coordinatorRerenders s (mutateNode s j n)
      ∧ ¬ presenterRerenders i obs s (mutateNode s j n) := by
  have hsel : selector (mutateNode s j n) = selector s := rfl
  have hvis : (mutateNode s j n).visibleNodeIds = s.visibleNodeIds := rfl
  have hcoord : ¬ coordinatorRerenders s (mutateNode s j n) := by
    rintro (h | h)
    · exact h hsel.symm
    · exact h hvis.symm
  refine ⟨hcoord, ?_⟩
  rintro (⟨hc, _⟩ | h)
  · exact hcoord hc
  · apply h
    show s.nodeLookup i = (mutateNode s j n).nodeLookup i
    simp [mutateNode, hij]

theorem unrelated_mutation_causes_no_rerender_witness :
    ("n1" : String) ≠ "n2"
      ∧ ¬ coordinatorRerenders storeFix (mutateNode storeFix "n2" nodeFix)
      ∧ ¬ presenterRerenders "n1" none storeFix (mutateNode storeFix "n2" nodeFix) := by
  have h := unrelated_mutation_causes_no_rerender storeFix "n2" nodeFix "n1" none (by decide)
  exact ⟨by decide, h.1, h.2⟩

theorem coordRenderPass_of_computed (cap : Bool) (st : CoordState)
    (h : st.memoComputed = true) : coordRenderPass cap st = st := by
  simp [coordRenderPass, h]

theorem coordRenderPass_iterate_of_computed (cap : Bool) (n : Nat) (st : CoordState)
    (h : st.memoComputed = true) : (coordRenderPass cap)^[n] st = st := by
  induction n with
  | zero => rfl
  | succ k ih => rw [Function.iterate_succ_apply, coordRenderPass_of_computed cap st h]; exact ih

/-- C9: over a whole coordinator lifetime with any number of re-renders,
exactly one observer is constructed when the runtime has the
ResizeObserver capability and none otherwise; the disconnect of the
cleanup runs exactly once when an observer exists, even if no measurement
ever fired; no error is ever reported by this path; and the memoised
observer value (the token, or null without the capability) is shared
unchanged with every presenter the coordinator renders. -/
theorem observer_lifecycle (cap : Bool) (n : Nat) (obs : Option Nat) (s : StoreState) :
    (coordLifetime cap n).constructions = (if cap then 1 else 0)
      ∧ (coordLifetime cap n).disconnectCalls = (if cap then 1 else 0)
      ∧ (coordLifetime cap n).observer = (if cap then some 0 else none)
      ∧ (coordLifetime cap n).errorCalls = []
      ∧ ∀ p ∈ coordinatorChildren obs s, p.resizeObserver = obs := by
  have hshare : ∀ p ∈ coordinatorChildren obs s, p.resizeObserver = obs := by
    intro p hp
    obtain ⟨i, _, rfl⟩ := List.mem_map.mp hp
    rfl
  have hlife : coordLifetime cap n
      = coordUnmount ((coordRenderPass cap)^[n] (coordRenderPass cap coordInit)) := by
    unfold coordLifetime
    rw [Function.iterate_succ_apply]
  cases cap with
  | true =>
    rw [hlife, show coordRenderPass true coordInit
        = { memoComputed := true, observer := some 0, refCurrent := some 0,
            constructions := 1, disconnectCalls := 0, errorCalls := [] } from rfl,
      coordRenderPass_iterate_of_computed _ _ _ rfl]
    exact ⟨rfl, rfl, rfl, rfl, hshare⟩
  | false =>
    rw [hlife, show coordRenderPass false coordInit
        = { memoComputed := true, observer := none, refCurrent := none,
            constructions := 0, disconnectCalls := 0, errorCalls := [] } from rfl,
      coordRenderPass_iterate_of_computed _ _ _ rfl]
    exact ⟨rfl, rfl, rfl, rfl, hshare⟩

theorem observer_lifecycle_witness :
    (coordLifetime true 3).constructions = 1
      ∧ (coordLifetime false 3).constructions = 0
      ∧ (downProps "n1" (some 0) storeFix).resizeObserver = some 0 := by
  have hmem : downProps "n1" (some 0) storeFix ∈ coordinatorChildren (some 0) storeFix :=
    List.mem_map.mpr ⟨"n1", by simp [storeFix], rfl⟩
  exact ⟨(observer_lifecycle true 3 (some 0) storeFix).1,
    (observer_lifecycle false 3 none storeFix).1,
    (observer_lifecycle true 3 (some 0) storeFix).2.2.2.2 _ hmem⟩

theorem find?_map_replace_eq (m : List (Option String × DimensionUpdate))
    (k' : Option String) (v : DimensionUpdate)
    (hany : m.any (fun p => decide (p.1 = k')) = true) :
    (m.map (fun p => if p.1 = k' then (k', v) else p)).find?
        (fun p => decide (p.1 = k')) = some (k', v) := by
  induction m with
  | nil => simp at hany
  | cons q rest ih =>
    by_cases hq : q.1 = k'
    · simp only [List.map_cons, if_pos hq]
      rw [List.find?_cons_of_pos]
      simp
    · simp only [List.map_cons, if_neg hq]
      rw [List.find?_cons_of_neg]
      · apply ih
        simp only [List.any_cons, Bool.or_eq_true, decide_eq_true_eq] at hany
        rcases hany with h | h
        · exact absurd h hq
        · exact h
      · simp [hq]

theorem find?_map_replace_ne (m : List (Option String × DimensionUpdate))
    (k' k : Option String) (v : DimensionUpdate) (hkk : k' ≠ k) :
    (m.map (fun p => if p.1 = k' then (k', v) else p)).find?
        (fun p => decide (p.1 = k))
      = m.find? (fun p => decide (p.1 = k)) := by
  induction m with
  | nil => rfl
  | cons q rest ih =>
    by_cases hq : q.1 = k'
    · simp only [List.map_cons, if_pos hq]
      rw [List.find?_cons_of_neg _ (by simp [hkk]),
        List.find?_cons_of_neg _ (by simp [hq, hkk])]
      exact ih
    · simp only [List.map_cons, if_neg hq]
      by_cases hqk : q.1 = k
      · rw [List.find?_cons_of_pos _ (by simp [hqk]), List.find?_cons_of_pos _ (by simp [hqk])]
      · rw [List.find?_cons_of_neg _ (by simp [hqk]), List.find?_cons_of_neg _ (by simp [hqk])]
        exact ih

theorem mapGet_mapSet (m : List (Option String × DimensionUpdate))
    (k' k : Option String) (v : DimensionUpdate) :
    mapGet (mapSet m k' v) k = if k' = k then some v else mapGet m k := by
  unfold mapGet mapSet
  by_cases hany : m.any (fun p => decide (p.1 = k')) = true
  · rw [if_pos hany]
    by_cases hk : k' = k
    · subst hk
      rw [if_pos rfl, find?_map_replace_eq m k' v hany]
      rfl
    · rw [if_neg hk, find?_map_replace_ne m k' k v hk]
  · rw [if_neg hany]
    have hnone : m.find? (fun p => decide (p.1 = k')) = none := by
      rw [List.find?_eq_none]
      intro x hx hpx
      exact hany (List.any_eq_true.mpr ⟨x, hx, hpx⟩)
    rw [List.find?_append]
    by_cases hk : k' = k
    · subst hk
      rw [hnone]
      simp
    · have hsingle : ([(k', v)].find? (fun p => decide (p.1 = k))) = none := by
        simp [hk]
      rw [hsingle, if_neg hk]
      simp

theorem mapKeys_map_replace (m : List (Option String × DimensionUpdate))
    (k' : Option String) (v : DimensionUpdate) :
    mapKeys (m.map (fun p => if p.1 = k' then (k', v) else p)) = mapKeys m := by
  unfold mapKeys
  induction m with
  | nil => rfl
  | cons q rest ih =>
    by_cases hq : q.1 = k'
    · simp only [List.map_cons, if_pos hq]
      rw [ih, hq]
    · simp only [List.map_cons, if_neg hq]
      rw [ih]

theorem mapKeys_mapSet (m : List (Option String × DimensionUpdate))
    (k : Option String) (v : DimensionUpdate) :
    mapKeys (mapSet m k v)
      = if m.any (fun p => decide (p.1 = k)) = true then mapKeys m
        else mapKeys m ++ [k] := by
  unfold mapSet
  by_cases hany : m.any (fun p => decide (p.1 = k)) = true
  · rw [if_pos hany, if_pos hany, mapKeys_map_replace]
  · rw [if_neg hany, if_neg hany]
    unfold mapKeys
    simp

theorem mapKeys_mapSet_nodup (m : List (Option String × DimensionUpdate))
    (k : Option String) (v : DimensionUpdate) (h : (mapKeys m).Nodup) :
    (mapKeys (mapSet m k v)).Nodup := by
  rw [mapKeys_mapSet]
  by_cases hany : m.any (fun p => decide (p.1 = k)) = true
  · rw [if_pos hany]
    exact h
  · rw [if_neg hany]
    have hk : k ∉ mapKeys m := by
      intro hmem
      obtain ⟨p, hp, hpk⟩ := List.mem_map.mp hmem
      exact hany (List.any_eq_true.mpr ⟨p, hp, by simp [hpk]⟩)
    refine List.Nodup.append h (List.nodup_singleton k) ?_
    intro a ha hb
    rw [List.mem_singleton] at hb
    subst hb
    exact hk ha

theorem stagedUpdates_nodup_aux (entries : List ObservedElement) :
    ∀ acc, (mapKeys acc).Nodup →
      (mapKeys (entries.foldl
        (fun m e => mapSet m e.dataId ⟨e.dataId, e, true⟩) acc)).Nodup := by
  induction entries with
  | nil => exact fun acc h => h
  | cons e rest ih =>
    intro acc h
    exact ih _ (mapKeys_mapSet_nodup _ _ _ h)

theorem stagedUpdates_go (entries : List ObservedElement) :
    ∀ (acc : List (Option String × DimensionUpdate)) (k : Option String),
    mapGet (entries.foldl (fun m e => mapSet m e.dataId ⟨e.dataId, e, true⟩) acc) k
      = match entries.reverse.find? (fun e => decide (e.dataId = k)) with
        | some e => some ⟨k, e, true⟩
        | none => mapGet acc k := by
  induction entries with
  | nil => intro acc k; simp
  | cons e rest ih =>
    intro acc k
    simp only [List.foldl_cons]
    rw [ih]
    simp only [List.reverse_cons, List.find?_append]
    cases hfind : rest.reverse.find? (fun x => decide (x.dataId = k)) with
    | some e2 => simp
    | none =>
      simp only [Option.none_or]
      rw [mapGet_mapSet]
      by_cases he : e.dataId = k
      · rw [if_pos he, he]
        simp [he]
      · rw [if_neg he]
        simp [he]

/-- C5: one invocation of the observer callback issues exactly one store
write, carrying the single mapping built over the whole batch; the mapping
is keyed by the id read from the data attribute of each entry, every entry is
staged as the record of that id, the element and forceUpdate true, and for
each key the staged value comes from the last entry of the batch bearing
that id. -/
theorem observer_callback_single_batched_write (entries : List ObservedElement) :
    resizeObserverCallback entries = [.storeWrite (stagedUpdates entries)]
      ∧ ∀ k, mapGet (stagedUpdates entries) k
          = (entries.reverse.find? (fun e => decide (e.dataId = k))).map
              (fun e => (⟨k, e, true⟩ : DimensionUpdate)) := by
  refine ⟨rfl, fun k => ?_⟩
  unfold stagedUpdates
  rw [stagedUpdates_go]
  cases entries.reverse.find? (fun e => decide (e.dataId = k)) <;> rfl

/-- C10: when a batch contains elements without the data-id attribute, the
callback does not skip them and reports no error: the null returned by the
attribute read becomes the key, so the flushed mapping holds exactly one
entry keyed by null, staged from the last attribute-less element of the
batch. -/
theorem attributeless_entries_share_null_key (entries : List ObservedElement)
    (h : ∃ e ∈ entries, e.dataId = none) :
    (mapKeys (stagedUpdates entries)).countP (fun x => decide (x = none)) = 1
      ∧ (∃ e, e ∈ entries ∧ e.dataId = none
          ∧ mapGet (stagedUpdates entries) none = some ⟨none, e, true⟩)
      ∧ resizeObserverCallback entries = [.storeWrite (stagedUpdates entries)] := by
  have hfind : ∃ e, entries.reverse.find? (fun e => decide (e.dataId = none)) = some e := by
    have hex : ∃ e ∈ entries.reverse, (fun e => decide (e.dataId = none)) e = true := by
      obtain ⟨e, he, hid⟩ := h
      exact ⟨e, List.mem_reverse.mpr he, by simp [hid]⟩
    obtain ⟨u, hu⟩ := Option.isSome_iff_exists.mp (List.find?_isSome.mpr hex)
    exact ⟨u, hu⟩
  obtain ⟨e0, he0⟩ := hfind
  have he0mem : e0 ∈ entries := List.mem_reverse.mp (List.mem_of_find?_eq_some he0)
  have he0id : e0.dataId = none := by
    have := List.find?_some he0
    simpa using this
  have hget : mapGet (stagedUpdates entries) none = some ⟨none, e0, true⟩ := by
    unfold stagedUpdates
    rw [stagedUpdates_go, he0]
  refine ⟨?_, ⟨e0, he0mem, he0id, hget⟩, rfl⟩
  have hnodup : (mapKeys (stagedUpdates entries)).Nodup := by
    unfold stagedUpdates
    exact stagedUpdates_nodup_aux entries [] (by simp [mapKeys])
  have hmem : none ∈ mapKeys (stagedUpdates entries) := by
    unfold mapGet at hget
    cases hp : (stagedUpdates entries).find? (fun p => decide (p.1 = none)) with
    | none => rw [hp] at hget; simp at hget
    | some pr =>
      have hpr := List.find?_some hp
      have hprmem := List.mem_of_find?_eq_some hp
      have : pr.1 = none := by simpa using hpr
      exact this ▸ List.mem_map.mpr ⟨pr, hprmem, rfl⟩
  exact List.count_eq_one_of_mem hnodup hmem

theorem attributeless_entries_share_null_key_witness :
    (∃ e ∈ entriesFix, e.dataId = none)
      ∧ (mapKeys (stagedUpdates entriesFix)).countP (fun x => decide (x = none)) = 1 := by
  have hex : ∃ e ∈ entriesFix, e.dataId = none := ⟨⟨none⟩, by simp [entriesFix], rfl⟩
  exact ⟨hex, (attributeless_entries_share_null_key entriesFix hex).1⟩

end ReactFlow
